import Mathlib

/-!
# Verification of win32-display-data (`src/device.rs`, `src/error.rs`)

A shallow embedding of the display-enumeration pipeline. The Win32 API
surface is modelled as an oracle structure `OsEnv`: each OS call the code
makes is a field of the environment, and the library functions are
translated into pure Lean functions over that environment, following the
Rust source line by line. Wide strings (`[u16; N]`) are `List Nat`;
decoded Rust `String`s are `List Nat` of unicode scalar values; handles
(`HMONITOR`, `HANDLE`, `isize`) are `Int`; Win32 error codes are `Nat`.
-/

/-- Win32 error-code constants used by the source. -/
def ERROR_SUCCESS : Nat := 0

def ERROR_ACCESS_DENIED : Nat := 5

/-- `ERROR_ACCESS_DENIED.to_hresult()` = 0x80070005, compared against
`windows::core::Error::code()` in `get_file_handle_for_display_device`. -/
def ERROR_ACCESS_DENIED_HRESULT : Nat := 0x80070005

/-- `DISPLAY_DEVICE_ACTIVE` state flag. -/
def DISPLAY_DEVICE_ACTIVE : Nat := 1

/-- `DISPLAYCONFIG_MODE_INFO_TYPE_TARGET` discriminant. -/
def DISPLAYCONFIG_MODE_INFO_TYPE_TARGET : Nat := 2

/-- `fn flag_set<T>(t: T, flag: T) -> bool { t & flag == flag }` -/
def flag_set (t flag : Nat) : Bool := t &&& flag == flag

/-- `RECT` from `windows::Win32::Foundation`. -/
structure RECT where
  left : Int
  top : Int
  rightEdge : Int
  bottom : Int
deriving DecidableEq, Repr

/-- `MONITORINFOEXW` (with the nested `monitorInfo` fields flattened). -/
structure MONITORINFOEXW where
  rcMonitor : RECT
  rcWork : RECT
  szDevice : List Nat
deriving DecidableEq, Repr

/-- `DISPLAY_DEVICEW` as used by the source (wide-string fields and flags). -/
structure DISPLAY_DEVICEW where
  DeviceName : List Nat
  DeviceString : List Nat
  StateFlags : Nat
  DeviceID : List Nat
  DeviceKey : List Nat
deriving DecidableEq, Repr

/-- `DISPLAYCONFIG_TARGET_DEVICE_NAME`, reduced to the fields the source
reads: the map key `monitorDevicePath` and `outputTechnology`. -/
structure DISPLAYCONFIG_TARGET_DEVICE_NAME where
  monitorDevicePath : List Nat
  outputTechnology : Nat
deriving DecidableEq, Repr

/-- `DISPLAYCONFIG_MODE_INFO`, reduced to the fields the source reads. -/
structure DISPLAYCONFIG_MODE_INFO where
  infoType : Nat
  adapterId : Nat
  id : Nat
deriving DecidableEq, Repr

/-- `SysError` from `src/error.rs` (wrapped `windows::core::Error` values
are carried as `Nat` error codes). -/
inductive SysError where
  | EnumDisplayMonitorsFailed (source : Nat)
  | GetDisplayConfigBufferSizesFailed (source : Nat)
  | QueryDisplayConfigFailed (source : Nat)
  | DisplayConfigGetDeviceInfoFailed (source : Nat)
  | GetMonitorInfoFailed (source : Nat)
  | GetPhysicalMonitorsFailed (source : Nat)
  | EnumerationMismatch
  | DeviceInfoMissing
  | OpeningMonitorDeviceInterfaceHandleFailed (device_name : List Nat) (source : Nat)
deriving DecidableEq, Repr

/-- `Device` from `src/device.rs`. -/
structure Device where
  hmonitor : Int
  size : RECT
  work_area_size : RECT
  device_name : List Nat
  device_description : List Nat
  device_key : List Nat
  device_path : List Nat
  output_technology : Nat
deriving DecidableEq, Repr

/-- `PhysicalDevice` from `src/device.rs`; the two wrapped handles are
carried as their raw numeric values. -/
structure PhysicalDevice where
  hmonitor : Int
  size : RECT
  work_area_size : RECT
  physical_monitor : Int
  file_handle : Int
  device_name : List Nat
  device_description : List Nat
  device_key : List Nat
  device_path : List Nat
  output_technology : Nat
deriving DecidableEq, Repr

/-- `Iterator::position` as used in `wchar_to_string`:
index of the first element satisfying the predicate. -/
def position (p : Nat → Bool) : List Nat → Option Nat
  | [] => none
  | x :: xs => if p x then some 0 else (position p xs).map (· + 1)

/-- `OsString::from_wide(..).to_string_lossy()`: lossy UTF-16 decoding into
unicode scalar values, replacing every unpaired surrogate with U+FFFD. -/
def to_string_lossy : List Nat → List Nat
  | [] => []
  | u :: rest =>
    if u < 0xD800 ∨ 0xDFFF < u then
      u :: to_string_lossy rest
    else if u ≤ 0xDBFF then
      match rest with
      | [] => [0xFFFD]
      | v :: rest2 =>
        if 0xDC00 ≤ v ∧ v ≤ 0xDFFF then
          (0x10000 + (u - 0xD800) * 0x400 + (v - 0xDC00)) :: to_string_lossy rest2
        else
          0xFFFD :: to_string_lossy (v :: rest2)
    else
      0xFFFD :: to_string_lossy rest

/-- `fn wchar_to_string(s: &[u16]) -> String`: truncate at the first zero
code unit (or take the whole buffer) and decode lossily. -/
def wchar_to_string (s : List Nat) : List Nat :=
  to_string_lossy (s.take ((position (· == 0) s).getD s.length))

example : wchar_to_string [65, 66, 0, 67] = [65, 66] := by decide
example : wchar_to_string [65, 66, 67] = [65, 66, 67] := by decide
example : wchar_to_string [0xD800, 65, 0] = [0xFFFD, 65] := by decide
example : wchar_to_string [0xD801, 0xDC01, 0] = [0x10401] := by decide

/-- The Win32 oracle: one field per OS call the source makes. The
device-info query takes a call counter because the source invokes
`DisplayConfigGetDeviceInfo` a second time when building the failure
value, and the platform may answer successive calls differently. -/
structure OsEnv where
  /-- `GetDisplayConfigBufferSizes`: `(path_count, mode_count)` or an error. -/
  getDisplayConfigBufferSizes : Except Nat (Nat × Nat)
  /-- `QueryDisplayConfig`: contents of the filled mode buffer, or an error. -/
  queryDisplayConfigModes : Except Nat (List DISPLAYCONFIG_MODE_INFO)
  /-- `DisplayConfigGetDeviceInfo` at global call index `k` for a given
  mode: returned Win32 error code, and the data filled into the header. -/
  devInfoCall : Nat → DISPLAYCONFIG_MODE_INFO → Nat × DISPLAYCONFIG_TARGET_DEVICE_NAME
  /-- `EnumDisplayMonitors` with the accumulating callback: the collected
  `HMONITOR` list, or an error. -/
  enumDisplayMonitorsResult : Except Nat (List Int)
  /-- `GetMonitorInfoW` for an `HMONITOR`. -/
  getMonitorInfo : Int → Except Nat MONITORINFOEXW
  /-- `EnumDisplayDevicesW` keyed on `szDevice`: the devices reported at
  indices 0, 1, … up to the first index the OS reports as absent. -/
  enumDisplayDevices : List Nat → List DISPLAY_DEVICEW
  /-- `GetNumberOfPhysicalMonitorsFromHMONITOR`. -/
  getNumberOfPhysicalMonitors : Int → Except Nat Nat
  /-- `GetPhysicalMonitorsFromHMONITOR`: success/failure of the fill call. -/
  fillPhysicalMonitors : Int → Except Nat Unit
  /-- Value filled into slot `i` of the physical-monitor array. -/
  physMonitorHandle : Int → Nat → Int
  /-- `CreateFileW` on a `DeviceID` path: a raw handle, or an HRESULT code. -/
  createFile : List Nat → Except Nat Int

/-- Last-write-wins lookup: the semantics of `HashMap::get` on a map
collected from an iterator of key-value pairs (later insertions of the
same key overwrite earlier ones). -/
def lookupLww (m : List (List Nat × DISPLAYCONFIG_TARGET_DEVICE_NAME)) (k : List Nat) :
    Option DISPLAYCONFIG_TARGET_DEVICE_NAME :=
  m.foldl (fun acc p => if p.1 = k then some p.2 else acc) none

/-- The per-target loop of `get_device_info_map`: walk the target-filtered
mode list threading the `DisplayConfigGetDeviceInfo` call counter.
Success conses `(monitorDevicePath, device_name)`; `ERROR_ACCESS_DENIED`
skips the entry; any other code issues the query a second time and fails
the whole build with that second call's code (short-circuiting, as
`collect::<Result<_, _>>` stops at the first error). -/
def build_info_pairs (env : OsEnv) :
    List DISPLAYCONFIG_MODE_INFO → Nat →
    Except SysError (List (List Nat × DISPLAYCONFIG_TARGET_DEVICE_NAME))
  | [], _ => .ok []
  | mode :: rest, k =>
    if mode.infoType = DISPLAYCONFIG_MODE_INFO_TYPE_TARGET then
      let r := env.devInfoCall k mode
      if r.1 = ERROR_SUCCESS then
        match build_info_pairs env rest (k + 1) with
        | .ok tail => .ok ((r.2.monitorDevicePath, r.2) :: tail)
        | .error e => .error e
      else if r.1 = ERROR_ACCESS_DENIED then
        build_info_pairs env rest (k + 1)
      else
        .error (.DisplayConfigGetDeviceInfoFailed (env.devInfoCall (k + 1) mode).1)
    else
      build_info_pairs env rest k

/-- `fn get_device_info_map()`: size query, config query, then the
per-target loop over modes with `infoType == TARGET`. -/
def get_device_info_map (env : OsEnv) :
    Except SysError (List (List Nat × DISPLAYCONFIG_TARGET_DEVICE_NAME)) :=
  match env.getDisplayConfigBufferSizes with
  | .error e => .error (.GetDisplayConfigBufferSizesFailed e)
  | .ok _ =>
    match env.queryDisplayConfigModes with
    | .error e => .error (.QueryDisplayConfigFailed e)
    | .ok modes => build_info_pairs env modes 0

/-- `fn enum_display_monitors()`. -/
def enum_display_monitors (env : OsEnv) : Except SysError (List Int) :=
  match env.enumDisplayMonitorsResult with
  | .error e => .error (.EnumDisplayMonitorsFailed e)
  | .ok hms => .ok hms

/-- `fn get_display_devices_from_hmonitor(hmonitor)`: monitor info, then
index-walk the display devices, keep only those with the ACTIVE flag,
pairing each with the monitor info. -/
def get_display_devices_from_hmonitor (env : OsEnv) (hmonitor : Int) :
    Except SysError (List (MONITORINFOEXW × DISPLAY_DEVICEW)) :=
  match env.getMonitorInfo hmonitor with
  | .error e => .error (.GetMonitorInfoFailed e)
  | .ok info =>
    .ok (((env.enumDisplayDevices info.szDevice).filter
        (fun device => flag_set device.StateFlags DISPLAY_DEVICE_ACTIVE)).map
      (fun device => (info, device)))

/-- `fn get_physical_monitors_from_hmonitor(hmonitor)`: count query, then
fill; the result has exactly `physical_number` wrapped handles. -/
def get_physical_monitors_from_hmonitor (env : OsEnv) (hmonitor : Int) :
    Except SysError (List Int) :=
  match env.getNumberOfPhysicalMonitors hmonitor with
  | .error e => .error (.GetPhysicalMonitorsFailed e)
  | .ok n =>
    match env.fillPhysicalMonitors hmonitor with
    | .error e => .error (.GetPhysicalMonitorsFailed e)
    | .ok _ => .ok ((List.range n).map (env.physMonitorHandle hmonitor))

/-- `fn get_file_handle_for_display_device(&display_device)`:
`Ok(Some(h))` on success, `Ok(None)` when `CreateFileW` fails with the
access-denied HRESULT, otherwise the named per-device error. -/
def get_file_handle_for_display_device (env : OsEnv) (display_device : DISPLAY_DEVICEW) :
    Except SysError (Option Int) :=
  match env.createFile display_device.DeviceID with
  | .ok h => .ok (some h)
  | .error e =>
    if e = ERROR_ACCESS_DENIED_HRESULT then
      .ok none
    else
      .error (.OpeningMonitorDeviceInterfaceHandleFailed
        (wchar_to_string display_device.DeviceName) e)

/-- `Result::<Option<T>, E>::transpose`. -/
def transposeRO : Except SysError (Option Int) → Option (Except SysError Int)
  | .ok none => none
  | .ok (some h) => some (.ok h)
  | .error e => some (.error e)

/-- Body of the `.map(..)` closure of `connected_displays_all`: complete
one device record by the target-info lookup. -/
def allRecord (m : List (List Nat × DISPLAYCONFIG_TARGET_DEVICE_NAME)) (hmonitor : Int)
    (pair : MONITORINFOEXW × DISPLAY_DEVICEW) : Except SysError Device :=
  match lookupLww m pair.2.DeviceID with
  | none => .error .DeviceInfoMissing
  | some info =>
    .ok { hmonitor := hmonitor
          size := pair.1.rcMonitor
          work_area_size := pair.1.rcWork
          device_name := wchar_to_string pair.2.DeviceName
          device_description := wchar_to_string pair.2.DeviceString
          device_key := wchar_to_string pair.2.DeviceKey
          device_path := wchar_to_string pair.2.DeviceID
          output_technology := info.outputTechnology }

/-- Body of the `flat_map` closure of `connected_displays_all`: the
per-logical-monitor element list. -/
def allBlock (env : OsEnv) (m : List (List Nat × DISPLAYCONFIG_TARGET_DEVICE_NAME))
    (hmonitor : Int) : List (Except SysError Device) :=
  match get_display_devices_from_hmonitor env hmonitor with
  | .error e => [.error e]
  | .ok display_devices => display_devices.map (allRecord m hmonitor)

/-- `pub fn connected_displays_all()`. -/
def connected_displays_all (env : OsEnv) : List (Except SysError Device) :=
  match get_device_info_map env with
  | .error e => [.error e]
  | .ok m =>
    match enum_display_monitors env with
    | .error e => [.error e]
    | .ok hmonitors => hmonitors.flatMap (allBlock env m)

/-- Body of the `.map(..)` closure of `connected_displays_physical`:
propagate a file-handle error via `?`, then the target-info lookup. -/
def physRecord (m : List (List Nat × DISPLAYCONFIG_TARGET_DEVICE_NAME)) (hmonitor : Int)
    (x : MONITORINFOEXW × Int × DISPLAY_DEVICEW × Except SysError Int) :
    Except SysError PhysicalDevice :=
  match x.2.2.2 with
  | .error e => .error e
  | .ok file_handle =>
    match lookupLww m x.2.2.1.DeviceID with
    | none => .error .DeviceInfoMissing
    | some info =>
      .ok { hmonitor := hmonitor
            size := x.1.rcMonitor
            work_area_size := x.1.rcWork
            physical_monitor := x.2.1
            file_handle := file_handle
            device_name := wchar_to_string x.2.2.1.DeviceName
            device_description := wchar_to_string x.2.2.1.DeviceString
            device_key := wchar_to_string x.2.2.1.DeviceKey
            device_path := wchar_to_string x.2.2.1.DeviceID
            output_technology := info.outputTechnology }

/-- Body of the `flat_map` closure of `connected_displays_physical`:
physical handles, display devices, the length check, then
`zip → filter_map (transposed file handle) → map`. -/
def physBlock (env : OsEnv) (m : List (List Nat × DISPLAYCONFIG_TARGET_DEVICE_NAME))
    (hmonitor : Int) : List (Except SysError PhysicalDevice) :=
  match get_physical_monitors_from_hmonitor env hmonitor with
  | .error e => [.error e]
  | .ok physical_monitors =>
    match get_display_devices_from_hmonitor env hmonitor with
    | .error e => [.error e]
    | .ok display_devices =>
      if display_devices.length ≠ physical_monitors.length then
        [.error .EnumerationMismatch]
      else
        (((physical_monitors.zip display_devices).filterMap
            (fun y =>
              (transposeRO (get_file_handle_for_display_device env y.2.2)).map
                (fun fh => (y.2.1, y.1, y.2.2, fh)))).map
          (physRecord m hmonitor))

/-- `pub fn connected_displays_physical()`. -/
def connected_displays_physical (env : OsEnv) : List (Except SysError PhysicalDevice) :=
  match get_device_info_map env with
  | .error e => [.error e]
  | .ok m =>
    match enum_display_monitors env with
    | .error e => [.error e]
    | .ok hmonitors => hmonitors.flatMap (physBlock env m)

/-- What one zipped `(physical_monitor, (monitor_info, display_device))`
pair contributes to the physical-variant output: nothing when the control
handle legitimately cannot be opened, the open error when it fails for
another reason, and otherwise the completed record. -/
def physContribution (env : OsEnv) (m : List (List Nat × DISPLAYCONFIG_TARGET_DEVICE_NAME))
    (hmonitor : Int) (y : Int × MONITORINFOEXW × DISPLAY_DEVICEW) :
    List (Except SysError PhysicalDevice) :=
  match get_file_handle_for_display_device env y.2.2 with
  | .ok none => []
  | .ok (some h) => [physRecord m hmonitor (y.2.1, y.1, y.2.2, .ok h)]
  | .error e => [physRecord m hmonitor (y.2.1, y.1, y.2.2, .error e)]

instance {ε α : Type} [DecidableEq ε] [DecidableEq α] : DecidableEq (Except ε α) := by
  intro a b
  cases a <;> cases b
  case error.error e f => exact decidable_of_iff (e = f) (by simp)
  case ok.ok x y => exact decidable_of_iff (x = y) (by simp)
  all_goals exact isFalse (by simp)

/-! ## Concrete environments used to exercise the model -/

/-- A benign default environment; concrete scenarios override fields. -/
def baseEnv : OsEnv where
  getDisplayConfigBufferSizes := .ok (1, 1)
  queryDisplayConfigModes := .ok []
  devInfoCall := fun _ _ => (ERROR_SUCCESS, ⟨[], 0⟩)
  enumDisplayMonitorsResult := .ok []
  getMonitorInfo := fun _ => .error 1
  enumDisplayDevices := fun _ => []
  getNumberOfPhysicalMonitors := fun _ => .ok 0
  fillPhysicalMonitors := fun _ => .ok ()
  physMonitorHandle := fun _ _ => 0
  createFile := fun _ => .ok 7

def rect0 : RECT := ⟨0, 0, 0, 0⟩

def modeT : DISPLAYCONFIG_MODE_INFO := ⟨DISPLAYCONFIG_MODE_INFO_TYPE_TARGET, 0, 0⟩

def tdnA : DISPLAYCONFIG_TARGET_DEVICE_NAME := ⟨[100], 3⟩

def infoA : MONITORINFOEXW := ⟨rect0, rect0, [10]⟩

def infoB : MONITORINFOEXW := ⟨rect0, rect0, [11]⟩

def devA1 : DISPLAY_DEVICEW := ⟨[65], [66], 1, [100], [67]⟩

def devA2 : DISPLAY_DEVICEW := ⟨[68], [69], 1, [100], [70]⟩

def devB : DISPLAY_DEVICEW := ⟨[71], [72], 1, [100], [73]⟩

def mA : List (List Nat × DISPLAYCONFIG_TARGET_DEVICE_NAME) := [([100], tdnA)]

/-- Scenario: two logical monitors; monitor 0 has one physical handle but
two active display devices (a length mismatch), monitor 1 is consistent. -/
def envC1 : OsEnv :=
  { baseEnv with
    queryDisplayConfigModes := .ok [modeT]
    devInfoCall := fun _ _ => (ERROR_SUCCESS, tdnA)
    enumDisplayMonitorsResult := .ok [0, 1]
    getMonitorInfo := fun hm => if hm = 0 then .ok infoA else .ok infoB
    enumDisplayDevices := fun sz => if sz = [10] then [devA1, devA2] else [devB]
    getNumberOfPhysicalMonitors := fun _ => .ok 1 }

example : get_device_info_map envC1 = .ok mA := by decide
example : enum_display_monitors envC1 = .ok [0, 1] := by decide
example : get_display_devices_from_hmonitor envC1 0 = .ok [(infoA, devA1), (infoA, devA2)] := by
  decide
example : get_physical_monitors_from_hmonitor envC1 0 = .ok [0] := by decide
example : physBlock envC1 mA 0 = [.error .EnumerationMismatch] := by decide
example :
    connected_displays_physical envC1 =
      [.error .EnumerationMismatch,
       .ok { hmonitor := 1, size := rect0, work_area_size := rect0, physical_monitor := 0,
             file_handle := 7, device_name := [71], device_description := [72],
             device_key := [73], device_path := [100], output_technology := 3 }] := by
  decide

/-! ## Helper lemmas about `position` (first-zero truncation) -/

lemma position_eq_some_of_first (s : List Nat) (k : Nat)
    (hk : s[k]? = some 0) (hmin : ∀ i, i < k → s[i]? ≠ some 0) :
    position (· == 0) s = some k := by
  induction s generalizing k with
  | nil => simp at hk
  | cons a t ih =>
    cases k with
    | zero =>
      simp only [List.getElem?_cons_zero, Option.some.injEq] at hk
      simp [position, hk]
    | succ k =>
      have ha : a ≠ 0 := by
        have h0 := hmin 0 (Nat.succ_pos _)
        simpa using h0
      have hrec : position (· == 0) t = some k := by
        apply ih
        · simpa using hk
        · intro i hi
          have := hmin (i + 1) (by omega)
          simpa using this
      simp [position, ha, hrec]

lemma position_eq_none_of_no_zero (s : List Nat) (h : ∀ u ∈ s, u ≠ 0) :
    position (· == 0) s = none := by
  induction s with
  | nil => rfl
  | cons a t ih =>
    have ha : a ≠ 0 := h a (List.mem_cons_self a t)
    have ht : position (· == 0) t = none := ih (fun u hu => h u (List.mem_cons_of_mem a hu))
    simp [position, ha, ht]

/-- Claim C5: `wchar_to_string` decodes exactly the code units preceding
the first zero (position `k`), the entire buffer when no zero occurs, and
the lossy decoder replaces undecodable (unpaired surrogate) code units
with U+FFFD instead of failing. -/
theorem claim_c5_wchar_to_string (s : List Nat) (k : Nat) :
    (s[k]? = some 0 → (∀ i, i < k → s[i]? ≠ some 0) →
       wchar_to_string s = to_string_lossy (s.take k)) ∧
    ((∀ u ∈ s, u ≠ 0) → wchar_to_string s = to_string_lossy s) ∧
    (∀ u t, 0xDC00 ≤ u → u ≤ 0xDFFF →
       to_string_lossy (u :: t) = 0xFFFD :: to_string_lossy t) ∧
    (∀ u, 0xD800 ≤ u → u ≤ 0xDBFF → to_string_lossy [u] = [0xFFFD]) := by
  refine ⟨?_, ?_, ?_, ?_⟩
  · intro hk hmin
    rw [wchar_to_string, position_eq_some_of_first s k hk hmin]
    rfl
  · intro h
    rw [wchar_to_string, position_eq_none_of_no_zero s h]
    simp
  · intro u t h1 h2
    cases t with
    | nil =>
      simp only [to_string_lossy]
      rw [if_neg (by omega), if_neg (by omega)]
    | cons v t2 =>
      simp only [to_string_lossy]
      rw [if_neg (by omega), if_neg (by omega)]
  · intro u h1 h2
    simp only [to_string_lossy]
    rw [if_neg (by omega), if_pos (by omega)]

/-- Witness for C5 at concrete inputs: buffer `[65, 0xDC00, 0, 67]` has its
first zero at position 2, and buffer `[65, 66]` has none. -/
theorem claim_c5_witness :
    (([65, 0xDC00, 0, 67] : List Nat)[2]? = some 0 ∧
       (∀ i, i < 2 → ([65, 0xDC00, 0, 67] : List Nat)[i]? ≠ some 0) ∧
       wchar_to_string [65, 0xDC00, 0, 67] = to_string_lossy ([65, 0xDC00, 0, 67].take 2)) ∧
    ((∀ u ∈ ([65, 66] : List Nat), u ≠ 0) ∧
       wchar_to_string [65, 66] = to_string_lossy [65, 66]) := by
  refine ⟨⟨by decide, by decide, ?_⟩, ⟨by decide, ?_⟩⟩
  · exact (claim_c5_wchar_to_string [65, 0xDC00, 0, 67] 2).1 (by decide) (by decide)
  · exact (claim_c5_wchar_to_string [65, 66] 0).2.1 (by decide)

/-- Claim C1: in the physical-variant listing, a logical monitor whose
physical-handle array and active-device array have different lengths
yields exactly the single `EnumerationMismatch` error element as its
block (no partial zip, no truncation), and the overall output is still
the concatenation of every logical monitor's block. -/
theorem claim_c1_enumeration_mismatch (env : OsEnv)
    (m : List (List Nat × DISPLAYCONFIG_TARGET_DEVICE_NAME)) (hms : List Int) (hm : Int)
    (pms : List Int) (dds : List (MONITORINFOEXW × DISPLAY_DEVICEW))
    (h1 : get_device_info_map env = .ok m)
    (h2 : enum_display_monitors env = .ok hms)
    (h3 : get_physical_monitors_from_hmonitor env hm = .ok pms)
    (h4 : get_display_devices_from_hmonitor env hm = .ok dds)
    (h5 : dds.length ≠ pms.length) :
    physBlock env m hm = [.error .EnumerationMismatch] ∧
    connected_displays_physical env = hms.flatMap (physBlock env m) := by
  constructor
  · simp only [physBlock, h3, h4]
    rw [if_pos h5]
  · simp only [connected_displays_physical, h1, h2]

/-- Witness for C1: in `envC1`, monitor 0 has one physical handle but
two active display devices, while monitor 1 still produces its block. -/
theorem claim_c1_witness :
    get_device_info_map envC1 = .ok mA ∧
    enum_display_monitors envC1 = .ok [0, 1] ∧
    get_physical_monitors_from_hmonitor envC1 0 = .ok [0] ∧
    get_display_devices_from_hmonitor envC1 0 = .ok [(infoA, devA1), (infoA, devA2)] ∧
    ([(infoA, devA1), (infoA, devA2)] : List (MONITORINFOEXW × DISPLAY_DEVICEW)).length ≠
      ([0] : List Int).length ∧
    (physBlock envC1 mA 0 = [.error .EnumerationMismatch] ∧
     connected_displays_physical envC1 = [0, 1].flatMap (physBlock envC1 mA)) :=
  ⟨by decide, by decide, by decide, by decide, by decide,
   claim_c1_enumeration_mismatch envC1 mA [0, 1] 0 [0] [(infoA, devA1), (infoA, devA2)]
     (by decide) (by decide) (by decide) (by decide) (by decide)⟩

/-- Claim C4: if the target-info build fails, or it succeeds and the
logical-monitor enumeration fails, each listing function returns exactly
one element: that global step's error. -/
theorem claim_c4_global_short_circuit (env : OsEnv) :
    (∀ e, get_device_info_map env = .error e →
       connected_displays_all env = [.error e] ∧
       connected_displays_physical env = [.error e]) ∧
    (∀ m e, get_device_info_map env = .ok m → enum_display_monitors env = .error e →
       connected_displays_all env = [.error e] ∧
       connected_displays_physical env = [.error e]) := by
  constructor
  · intro e h
    constructor <;> simp only [connected_displays_all, connected_displays_physical, h]
  · intro m e h1 h2
    constructor <;> simp only [connected_displays_all, connected_displays_physical, h1, h2]

/-- Environment whose buffer-size query fails with code 3. -/
def envC4a : OsEnv := { baseEnv with getDisplayConfigBufferSizes := .error 3 }

/-- Environment whose monitor enumeration fails with code 4. -/
def envC4b : OsEnv := { baseEnv with enumDisplayMonitorsResult := .error 4 }

/-- Witness for C4 at the two failing environments. -/
theorem claim_c4_witness :
    (get_device_info_map envC4a = .error (.GetDisplayConfigBufferSizesFailed 3) ∧
     connected_displays_all envC4a = [.error (.GetDisplayConfigBufferSizesFailed 3)] ∧
     connected_displays_physical envC4a = [.error (.GetDisplayConfigBufferSizesFailed 3)]) ∧
    (get_device_info_map envC4b = .ok [] ∧
     enum_display_monitors envC4b = .error (.EnumDisplayMonitorsFailed 4) ∧
     connected_displays_all envC4b = [.error (.EnumDisplayMonitorsFailed 4)] ∧
     connected_displays_physical envC4b = [.error (.EnumDisplayMonitorsFailed 4)]) := by
  have ha := (claim_c4_global_short_circuit envC4a).1
    (.GetDisplayConfigBufferSizesFailed 3) (by decide)
  have hb := (claim_c4_global_short_circuit envC4b).2 []
    (.EnumDisplayMonitorsFailed 4) (by decide) (by decide)
  exact ⟨⟨by decide, ha.1, ha.2⟩, ⟨by decide, by decide, hb.1, hb.2⟩⟩

/-- The `filter_map`-then-`map` stage of `physBlock` concatenates the
per-pair contributions. -/
lemma filterMap_map_eq_flatMap_physContribution (env : OsEnv)
    (m : List (List Nat × DISPLAYCONFIG_TARGET_DEVICE_NAME)) (hm : Int)
    (l : List (Int × MONITORINFOEXW × DISPLAY_DEVICEW)) :
    ((l.filterMap (fun y =>
        (transposeRO (get_file_handle_for_display_device env y.2.2)).map
          (fun fh => (y.2.1, y.1, y.2.2, fh)))).map (physRecord m hm)) =
      l.flatMap (physContribution env m hm) := by
  induction l with
  | nil => rfl
  | cons y l ih =>
    rw [List.flatMap_cons]
    cases hfh : get_file_handle_for_display_device env y.2.2 with
    | error e =>
      have hy : (transposeRO (get_file_handle_for_display_device env y.2.2)).map
          (fun fh => (y.2.1, y.1, y.2.2, fh)) =
          some (y.2.1, y.1, y.2.2, Except.error e) := by rw [hfh]; rfl
      have hcon : physContribution env m hm y =
          [physRecord m hm (y.2.1, y.1, y.2.2, Except.error e)] := by
        simp [physContribution, hfh]
      simp only [List.filterMap_cons, hy, hcon, List.map_cons, List.singleton_append, ih]
    | ok o =>
      cases o with
      | none =>
        have hy : (transposeRO (get_file_handle_for_display_device env y.2.2)).map
            (fun fh => (y.2.1, y.1, y.2.2, fh)) = none := by rw [hfh]; rfl
        have hcon : physContribution env m hm y = [] := by
          simp [physContribution, hfh]
        simp only [List.filterMap_cons, hy, hcon, List.nil_append, ih]
      | some h =>
        have hy : (transposeRO (get_file_handle_for_display_device env y.2.2)).map
            (fun fh => (y.2.1, y.1, y.2.2, fh)) =
            some (y.2.1, y.1, y.2.2, Except.ok h) := by rw [hfh]; rfl
        have hcon : physContribution env m hm y =
            [physRecord m hm (y.2.1, y.1, y.2.2, Except.ok h)] := by
          simp [physContribution, hfh]
        simp only [List.filterMap_cons, hy, hcon, List.map_cons, List.singleton_append, ih]

/-- Claim C2: with the zipped arrays of equal length, every pair whose
`CreateFileW` fails with the access-denied HRESULT contributes nothing to
the physical-variant output, and every pair whose open fails with any
other code contributes exactly the
`OpeningMonitorDeviceInterfaceHandleFailed` error carrying the device's
name; such an error is indeed an element of the overall output. -/
theorem claim_c2_file_handle_policy (env : OsEnv)
    (m : List (List Nat × DISPLAYCONFIG_TARGET_DEVICE_NAME)) (hms : List Int) (hm : Int)
    (pms : List Int) (dds : List (MONITORINFOEXW × DISPLAY_DEVICEW))
    (h1 : get_device_info_map env = .ok m)
    (h2 : enum_display_monitors env = .ok hms)
    (hmem : hm ∈ hms)
    (h3 : get_physical_monitors_from_hmonitor env hm = .ok pms)
    (h4 : get_display_devices_from_hmonitor env hm = .ok dds)
    (h5 : dds.length = pms.length) :
    physBlock env m hm = (pms.zip dds).flatMap (physContribution env m hm) ∧
    (∀ y : Int × MONITORINFOEXW × DISPLAY_DEVICEW, ∀ e,
       env.createFile y.2.2.DeviceID = .error e →
       (e = ERROR_ACCESS_DENIED_HRESULT → physContribution env m hm y = []) ∧
       (e ≠ ERROR_ACCESS_DENIED_HRESULT →
          physContribution env m hm y =
            [.error (.OpeningMonitorDeviceInterfaceHandleFailed
               (wchar_to_string y.2.2.DeviceName) e)])) ∧
    (∀ y ∈ pms.zip dds, ∀ e,
       env.createFile y.2.2.DeviceID = .error e → e ≠ ERROR_ACCESS_DENIED_HRESULT →
       .error (.OpeningMonitorDeviceInterfaceHandleFailed
         (wchar_to_string y.2.2.DeviceName) e) ∈ connected_displays_physical env) := by
  have hblock : physBlock env m hm = (pms.zip dds).flatMap (physContribution env m hm) := by
    simp only [physBlock, h3, h4]
    rw [if_neg (by omega)]
    exact filterMap_map_eq_flatMap_physContribution env m hm (pms.zip dds)
  have hcontrib : ∀ y : Int × MONITORINFOEXW × DISPLAY_DEVICEW, ∀ e,
      env.createFile y.2.2.DeviceID = .error e →
      (e = ERROR_ACCESS_DENIED_HRESULT → physContribution env m hm y = []) ∧
      (e ≠ ERROR_ACCESS_DENIED_HRESULT →
         physContribution env m hm y =
           [.error (.OpeningMonitorDeviceInterfaceHandleFailed
              (wchar_to_string y.2.2.DeviceName) e)]) := by
    intro y e he
    constructor
    · intro hacc
      simp [physContribution, get_file_handle_for_display_device, he, hacc]
    · intro hne
      simp [physContribution, get_file_handle_for_display_device, he, hne, physRecord]
  refine ⟨hblock, hcontrib, ?_⟩
  intro y hy e he hne
  have hc := (hcontrib y e he).2 hne
  simp only [connected_displays_physical, h1, h2]
  rw [List.mem_flatMap]
  refine ⟨hm, hmem, ?_⟩
  rw [hblock, List.mem_flatMap]
  exact ⟨y, hy, by rw [hc]; exact List.mem_singleton_self _⟩

def devD1 : DISPLAY_DEVICEW := ⟨[74], [75], 1, [201], [76]⟩

def devD2 : DISPLAY_DEVICEW := ⟨[77], [78], 1, [202], [79]⟩

/-- Scenario: one monitor with two devices; opening device `[201]` fails
with access denied, opening device `[202]` fails with code 99. -/
def envC2 : OsEnv :=
  { baseEnv with
    queryDisplayConfigModes := .ok [modeT]
    devInfoCall := fun _ _ => (ERROR_SUCCESS, tdnA)
    enumDisplayMonitorsResult := .ok [0]
    getMonitorInfo := fun _ => .ok infoA
    enumDisplayDevices := fun _ => [devD1, devD2]
    getNumberOfPhysicalMonitors := fun _ => .ok 2
    createFile := fun path =>
      if path = [201] then .error ERROR_ACCESS_DENIED_HRESULT
      else if path = [202] then .error 99 else .ok 7 }

example :
    connected_displays_physical envC2 =
      [.error (.OpeningMonitorDeviceInterfaceHandleFailed [77] 99)] := by decide

/-- Witness for C2 in `envC2`. -/
theorem claim_c2_witness :
    get_device_info_map envC2 = .ok mA ∧
    enum_display_monitors envC2 = .ok [0] ∧ (0 : Int) ∈ ([0] : List Int) ∧
    get_physical_monitors_from_hmonitor envC2 0 = .ok [0, 0] ∧
    get_display_devices_from_hmonitor envC2 0 = .ok [(infoA, devD1), (infoA, devD2)] ∧
    ([(infoA, devD1), (infoA, devD2)] : List (MONITORINFOEXW × DISPLAY_DEVICEW)).length =
      ([0, 0] : List Int).length ∧
    (physBlock envC2 mA 0 =
       (([0, 0] : List Int).zip [(infoA, devD1), (infoA, devD2)]).flatMap
         (physContribution envC2 mA 0) ∧
     (∀ y : Int × MONITORINFOEXW × DISPLAY_DEVICEW, ∀ e,
        envC2.createFile y.2.2.DeviceID = .error e →
        (e = ERROR_ACCESS_DENIED_HRESULT → physContribution envC2 mA 0 y = []) ∧
        (e ≠ ERROR_ACCESS_DENIED_HRESULT →
           physContribution envC2 mA 0 y =
             [.error (.OpeningMonitorDeviceInterfaceHandleFailed
                (wchar_to_string y.2.2.DeviceName) e)])) ∧
     (∀ y ∈ (([0, 0] : List Int).zip [(infoA, devD1), (infoA, devD2)]), ∀ e,
        envC2.createFile y.2.2.DeviceID = .error e → e ≠ ERROR_ACCESS_DENIED_HRESULT →
        .error (.OpeningMonitorDeviceInterfaceHandleFailed
          (wchar_to_string y.2.2.DeviceName) e) ∈ connected_displays_physical envC2)) :=
  ⟨by decide, by decide, by decide, by decide, by decide, by decide,
   claim_c2_file_handle_policy envC2 mA [0] 0 [0, 0] [(infoA, devD1), (infoA, devD2)]
     (by decide) (by decide) (by decide) (by decide) (by decide) (by decide)⟩

/-- A device whose `DeviceID` is absent from the target-info map and whose
control-handle open fails with access denied: in the physical variant this
device is dropped outright before the lookup. -/
def devE : DISPLAY_DEVICEW := ⟨[80], [81], 1, [300], [82]⟩

def infoE : MONITORINFOEXW := ⟨rect0, rect0, [12]⟩

def envC3 : OsEnv :=
  { baseEnv with
    queryDisplayConfigModes := .ok [modeT]
    devInfoCall := fun _ _ => (ERROR_SUCCESS, tdnA)
    enumDisplayMonitorsResult := .ok [0]
    getMonitorInfo := fun _ => .ok infoE
    enumDisplayDevices := fun _ => [devE]
    getNumberOfPhysicalMonitors := fun _ => .ok 1
    createFile := fun _ => .error ERROR_ACCESS_DENIED_HRESULT }

/-- Counterexample to C3 as stated: in `envC3` the single active device's
`DeviceID` `[300]` has no entry in the target-info map, yet the
physical-variant output contains no `DeviceInfoMissing` element — it is
empty, because the access-denied control-handle open drops the device
before the lookup. -/
theorem claim_c3_counterexample :
    get_device_info_map envC3 = .ok mA ∧
    enum_display_monitors envC3 = .ok [0] ∧
    get_display_devices_from_hmonitor envC3 0 = .ok [(infoE, devE)] ∧
    lookupLww mA devE.DeviceID = none ∧
    connected_displays_physical envC3 = [] := by decide

/-- Claim C3 (amended): in `connected_displays_all` every enumerated
active device whose identity path misses the map yields exactly the
`DeviceInfoMissing` element in that monitor's block (one element per
device, none dropped), and that element appears in the overall output; in
`connected_displays_physical` the same holds for every zipped device that
reaches the lookup, i.e. whose control-handle open returned a handle. -/
theorem claim_c3_device_info_missing (env : OsEnv)
    (m : List (List Nat × DISPLAYCONFIG_TARGET_DEVICE_NAME)) (hms : List Int) (hm : Int)
    (dds : List (MONITORINFOEXW × DISPLAY_DEVICEW))
    (info : MONITORINFOEXW) (d : DISPLAY_DEVICEW)
    (h1 : get_device_info_map env = .ok m)
    (h2 : enum_display_monitors env = .ok hms)
    (h4 : get_display_devices_from_hmonitor env hm = .ok dds) :
    connected_displays_all env = hms.flatMap (allBlock env m) ∧
    allBlock env m hm = dds.map (allRecord m hm) ∧
    (lookupLww m d.DeviceID = none →
       allRecord m hm (info, d) = .error .DeviceInfoMissing ∧
       ((info, d) ∈ dds → hm ∈ hms →
          .error .DeviceInfoMissing ∈ connected_displays_all env) ∧
       (∀ pm h, env.createFile d.DeviceID = .ok h →
          physContribution env m hm (pm, info, d) = [.error .DeviceInfoMissing])) := by
  have hall : connected_displays_all env = hms.flatMap (allBlock env m) := by
    simp only [connected_displays_all, h1, h2]
  have hblock : allBlock env m hm = dds.map (allRecord m hm) := by
    simp only [allBlock, h4]
  refine ⟨hall, hblock, ?_⟩
  intro hmiss
  have hrec : allRecord m hm (info, d) = .error .DeviceInfoMissing := by
    simp [allRecord, hmiss]
  refine ⟨hrec, ?_, ?_⟩
  · intro hdd hmm
    rw [hall, List.mem_flatMap]
    refine ⟨hm, hmm, ?_⟩
    rw [hblock]
    exact hrec ▸ List.mem_map_of_mem (allRecord m hm) hdd
  · intro pm h hopen
    simp [physContribution, get_file_handle_for_display_device, hopen, physRecord, hmiss]

/-- Scenario for the amended C3: device `[300]` is absent from the map;
its control handle opens fine, and in the lightweight variant it is
enumerated normally. -/
def envC3b : OsEnv :=
  { baseEnv with
    queryDisplayConfigModes := .ok [modeT]
    devInfoCall := fun _ _ => (ERROR_SUCCESS, tdnA)
    enumDisplayMonitorsResult := .ok [0]
    getMonitorInfo := fun _ => .ok infoE
    enumDisplayDevices := fun _ => [devE]
    getNumberOfPhysicalMonitors := fun _ => .ok 1 }

example : connected_displays_all envC3b = [.error .DeviceInfoMissing] := by decide
example : connected_displays_physical envC3b = [.error .DeviceInfoMissing] := by decide

/-- Witness for the amended C3 in `envC3b`. -/
theorem claim_c3_witness :
    get_device_info_map envC3b = .ok mA ∧
    enum_display_monitors envC3b = .ok [0] ∧
    get_display_devices_from_hmonitor envC3b 0 = .ok [(infoE, devE)] ∧
    lookupLww mA devE.DeviceID = none ∧
    (connected_displays_all envC3b = [0].flatMap (allBlock envC3b mA) ∧
     allBlock envC3b mA 0 = [(infoE, devE)].map (allRecord mA 0) ∧
     (lookupLww mA devE.DeviceID = none →
        allRecord mA 0 (infoE, devE) = .error .DeviceInfoMissing ∧
        ((infoE, devE) ∈ [(infoE, devE)] → (0 : Int) ∈ ([0] : List Int) →
           .error .DeviceInfoMissing ∈ connected_displays_all envC3b) ∧
        (∀ pm h, envC3b.createFile devE.DeviceID = .ok h →
           physContribution envC3b mA 0 (pm, infoE, devE) =
             [.error .DeviceInfoMissing]))) :=
  ⟨by decide, by decide, by decide, by decide,
   claim_c3_device_info_missing envC3b mA [0] 0 [(infoE, devE)] infoE devE
     (by decide) (by decide) (by decide)⟩

/-- Environment whose device-info query fails with code 1, while the
repeated query issued when building the error value returns code 2. -/
def envC8 : OsEnv :=
  { baseEnv with
    queryDisplayConfigModes := .ok [modeT]
    devInfoCall := fun k _ => if k = 0 then (1, tdnA) else (2, tdnA) }

/-- Counterexample to C8 as stated: in `envC8` the originating (failed)
`DisplayConfigGetDeviceInfo` call returns code 1, but the build's error
carries code 2 — the code returned by the second, repeated query the
source issues inside the error branch. -/
theorem claim_c8_counterexample :
    (envC8.devInfoCall 0 modeT).1 = 1 ∧ (1 : Nat) ≠ ERROR_SUCCESS ∧
    (1 : Nat) ≠ ERROR_ACCESS_DENIED ∧
    get_device_info_map envC8 = .error (.DisplayConfigGetDeviceInfoFailed 2) ∧
    (Except.error (.DisplayConfigGetDeviceInfoFailed 2) :
        Except SysError (List (List Nat × DISPLAYCONFIG_TARGET_DEVICE_NAME))) ≠
      .error (.DisplayConfigGetDeviceInfoFailed 1) := by decide

/-- Claim C8 (amended): when a per-target device-info query fails with a
code other than success or access-denied, the build fails with
`DisplayConfigGetDeviceInfoFailed` carrying the code returned by an
immediately repeated query on the same target; that equals the
originating code exactly when the platform answers the repeated query
with the same code. -/
theorem claim_c8_device_info_query_failure (env : OsEnv)
    (mode : DISPLAYCONFIG_MODE_INFO) (rest : List DISPLAYCONFIG_MODE_INFO) (k : Nat)
    (ht : mode.infoType = DISPLAYCONFIG_MODE_INFO_TYPE_TARGET)
    (hs : (env.devInfoCall k mode).1 ≠ ERROR_SUCCESS)
    (ha : (env.devInfoCall k mode).1 ≠ ERROR_ACCESS_DENIED) :
    build_info_pairs env (mode :: rest) k =
      .error (.DisplayConfigGetDeviceInfoFailed (env.devInfoCall (k + 1) mode).1) ∧
    ((env.devInfoCall (k + 1) mode).1 = (env.devInfoCall k mode).1 →
       build_info_pairs env (mode :: rest) k =
         .error (.DisplayConfigGetDeviceInfoFailed (env.devInfoCall k mode).1)) ∧
    (∀ sizes modes, env.getDisplayConfigBufferSizes = .ok sizes →
       env.queryDisplayConfigModes = .ok modes →
       get_device_info_map env = build_info_pairs env modes 0) := by
  have h1 : build_info_pairs env (mode :: rest) k =
      .error (.DisplayConfigGetDeviceInfoFailed (env.devInfoCall (k + 1) mode).1) := by
    simp only [build_info_pairs]
    rw [if_pos ht, if_neg hs, if_neg ha]
  refine ⟨h1, fun hsame => by rw [h1, hsame], ?_⟩
  intro sizes modes hb hq
  simp only [get_device_info_map, hb, hq]

/-- Witness for the amended C8 in `envC8`. -/
theorem claim_c8_witness :
    (modeT.infoType = DISPLAYCONFIG_MODE_INFO_TYPE_TARGET ∧
     (envC8.devInfoCall 0 modeT).1 ≠ ERROR_SUCCESS ∧
     (envC8.devInfoCall 0 modeT).1 ≠ ERROR_ACCESS_DENIED) ∧
    (build_info_pairs envC8 [modeT] 0 =
       .error (.DisplayConfigGetDeviceInfoFailed (envC8.devInfoCall 1 modeT).1) ∧
     ((envC8.devInfoCall 1 modeT).1 = (envC8.devInfoCall 0 modeT).1 →
        build_info_pairs envC8 [modeT] 0 =
          .error (.DisplayConfigGetDeviceInfoFailed (envC8.devInfoCall 0 modeT).1)) ∧
     (∀ sizes modes, envC8.getDisplayConfigBufferSizes = .ok sizes →
        envC8.queryDisplayConfigModes = .ok modes →
        get_device_info_map envC8 = build_info_pairs envC8 modes 0)) :=
  ⟨⟨by decide, by decide, by decide⟩,
   claim_c8_device_info_query_failure envC8 modeT [] 0 (by decide) (by decide) (by decide)⟩

/-- Folding the lookup step over pairs that never match the key leaves
the accumulator unchanged. -/
lemma lookup_foldl_of_no_key (k : List Nat)
    (l : List (List Nat × DISPLAYCONFIG_TARGET_DEVICE_NAME))
    (init : Option DISPLAYCONFIG_TARGET_DEVICE_NAME) (h : ∀ p ∈ l, p.1 ≠ k) :
    l.foldl (fun acc p => if p.1 = k then some p.2 else acc) init = init := by
  induction l generalizing init with
  | nil => rfl
  | cons p l ih =>
    rw [List.foldl_cons, if_neg (h p (List.mem_cons_self p l))]
    exact ih init (fun q hq => h q (List.mem_cons_of_mem p hq))

/-- The lookup returns the value of the last pair holding the key. -/
lemma lookupLww_last_occurrence (pre l3 : List (List Nat × DISPLAYCONFIG_TARGET_DEVICE_NAME))
    (k : List Nat) (w : DISPLAYCONFIG_TARGET_DEVICE_NAME)
    (h3 : ∀ p ∈ l3, p.1 ≠ k) :
    lookupLww (pre ++ (k, w) :: l3) k = some w := by
  rw [lookupLww, List.foldl_append, List.foldl_cons, if_pos rfl]
  exact lookup_foldl_of_no_key k l3 _ h3

/-- Claim C9: in the target-info map built by `get_device_info_map`, if
the same `monitorDevicePath` key occurs twice, the lookup yields the
entry processed later (last-write-wins), and for a key occurring exactly
once the lookup yields exactly that entry. -/
theorem claim_c9_last_write_wins (env : OsEnv)
    (m : List (List Nat × DISPLAYCONFIG_TARGET_DEVICE_NAME))
    (h : get_device_info_map env = .ok m) :
    (∀ l1 l2 l3 k v w, m = l1 ++ (k, v) :: l2 ++ (k, w) :: l3 →
       (∀ p ∈ l3, p.1 ≠ k) → lookupLww m k = some w) ∧
    (∀ l1 l2 k v, m = l1 ++ (k, v) :: l2 →
       (∀ p ∈ l1, p.1 ≠ k) → (∀ p ∈ l2, p.1 ≠ k) → lookupLww m k = some v) := by
  constructor
  · intro l1 l2 l3 k v w hm h3
    have hsplit : m = (l1 ++ (k, v) :: l2) ++ (k, w) :: l3 := by
      rw [hm]
    rw [hsplit]
    exact lookupLww_last_occurrence _ _ k w h3
  · intro l1 l2 k v hm _ h2
    rw [hm]
    exact lookupLww_last_occurrence _ _ k v h2

def tdnB : DISPLAYCONFIG_TARGET_DEVICE_NAME := ⟨[100], 9⟩

def modeT2 : DISPLAYCONFIG_MODE_INFO := ⟨DISPLAYCONFIG_MODE_INFO_TYPE_TARGET, 0, 1⟩

/-- Environment producing a duplicate key: both targets report path
`[100]`, the first with technology 3, the second with technology 9. -/
def envC9 : OsEnv :=
  { baseEnv with
    queryDisplayConfigModes := .ok [modeT, modeT2]
    devInfoCall := fun k _ => if k = 0 then (ERROR_SUCCESS, tdnA) else (ERROR_SUCCESS, tdnB) }

def mC9 : List (List Nat × DISPLAYCONFIG_TARGET_DEVICE_NAME) := [([100], tdnA), ([100], tdnB)]

/-- Witness for C9: the duplicate-key map of `envC9` resolves to the later
entry, and the single-key map of `envC1` to its unique entry. -/
theorem claim_c9_witness :
    (get_device_info_map envC9 = .ok mC9 ∧
     mC9 = [] ++ ([100], tdnA) :: [] ++ ([100], tdnB) :: [] ∧
     lookupLww mC9 [100] = some tdnB) ∧
    (get_device_info_map envC1 = .ok mA ∧
     mA = [] ++ ([100], tdnA) :: [] ∧
     lookupLww mA [100] = some tdnA) :=
  ⟨⟨by decide, by decide,
    (claim_c9_last_write_wins envC9 mC9 (by decide)).1 [] [] [] [100] tdnA tdnB
      (by decide) (by decide)⟩,
   ⟨by decide, by decide,
    (claim_c9_last_write_wins envC1 mA (by decide)).2 [] [] [100] tdnA
      (by decide) (by decide) (by decide)⟩⟩

/-- Every pair returned by the display-device enumeration carries the
ACTIVE state flag (the source filters on it). -/
lemma get_display_devices_ok_active (env : OsEnv) (hm : Int)
    (dds : List (MONITORINFOEXW × DISPLAY_DEVICEW))
    (h : get_display_devices_from_hmonitor env hm = .ok dds) :
    ∀ p ∈ dds, flag_set p.2.StateFlags DISPLAY_DEVICE_ACTIVE = true := by
  cases hmi : env.getMonitorInfo hm with
  | error e =>
    simp only [get_display_devices_from_hmonitor, hmi] at h
    exact Except.noConfusion h
  | ok info =>
    simp only [get_display_devices_from_hmonitor, hmi, Except.ok.injEq] at h
    subst h
    intro p hp
    obtain ⟨d, hd, rfl⟩ := List.mem_map.mp hp
    exact (List.mem_filter.mp hd).2

/-- A display-device enumeration failure is always `GetMonitorInfoFailed`. -/
lemma get_display_devices_error_shape (env : OsEnv) (hm : Int) (e : SysError)
    (h : get_display_devices_from_hmonitor env hm = .error e) :
    ∃ w, e = .GetMonitorInfoFailed w := by
  cases hmi : env.getMonitorInfo hm with
  | error w =>
    simp only [get_display_devices_from_hmonitor, hmi, Except.error.injEq] at h
    exact ⟨w, h.symm⟩
  | ok info =>
    simp only [get_display_devices_from_hmonitor, hmi] at h
    exact Except.noConfusion h

/-- A monitor-enumeration failure is always `EnumDisplayMonitorsFailed`. -/
lemma enum_display_monitors_error_shape (env : OsEnv) (e : SysError)
    (h : enum_display_monitors env = .error e) :
    ∃ w, e = .EnumDisplayMonitorsFailed w := by
  cases hr : env.enumDisplayMonitorsResult with
  | error w =>
    simp only [enum_display_monitors, hr, Except.error.injEq] at h
    exact ⟨w, h.symm⟩
  | ok l =>
    simp only [enum_display_monitors, hr] at h
    exact Except.noConfusion h

/-- A per-target loop failure is always `DisplayConfigGetDeviceInfoFailed`. -/
lemma build_info_pairs_error_shape (env : OsEnv) :
    ∀ (l : List DISPLAYCONFIG_MODE_INFO) (k : Nat) (e : SysError),
    build_info_pairs env l k = .error e →
    ∃ w, e = .DisplayConfigGetDeviceInfoFailed w := by
  intro l
  induction l with
  | nil =>
    intro k e h
    simp only [build_info_pairs] at h
    exact Except.noConfusion h
  | cons mode rest ih =>
    intro k e h
    simp only [build_info_pairs] at h
    by_cases ht : mode.infoType = DISPLAYCONFIG_MODE_INFO_TYPE_TARGET
    · rw [if_pos ht] at h
      by_cases hs : (env.devInfoCall k mode).1 = ERROR_SUCCESS
      · rw [if_pos hs] at h
        cases hb : build_info_pairs env rest (k + 1) with
        | ok tail => rw [hb] at h; exact Except.noConfusion h
        | error e2 =>
          rw [hb] at h
          simp only [Except.error.injEq] at h
          subst h
          exact ih (k + 1) e2 hb
      · rw [if_neg hs] at h
        by_cases ha : (env.devInfoCall k mode).1 = ERROR_ACCESS_DENIED
        · rw [if_pos ha] at h
          exact ih (k + 1) e h
        · rw [if_neg ha] at h
          simp only [Except.error.injEq] at h
          exact ⟨_, h.symm⟩
    · rw [if_neg ht] at h
      exact ih k e h

/-- A target-info build failure is one of the three build error kinds. -/
lemma get_device_info_map_error_shape (env : OsEnv) (e : SysError)
    (h : get_device_info_map env = .error e) :
    (∃ w, e = .GetDisplayConfigBufferSizesFailed w) ∨
    (∃ w, e = .QueryDisplayConfigFailed w) ∨
    (∃ w, e = .DisplayConfigGetDeviceInfoFailed w) := by
  cases hb : env.getDisplayConfigBufferSizes with
  | error w =>
    simp only [get_device_info_map, hb, Except.error.injEq] at h
    exact Or.inl ⟨w, h.symm⟩
  | ok sizes =>
    cases hq : env.queryDisplayConfigModes with
    | error w =>
      simp only [get_device_info_map, hb, hq, Except.error.injEq] at h
      exact Or.inr (Or.inl ⟨w, h.symm⟩)
    | ok modes =>
      have h2 : build_info_pairs env modes 0 = .error e := by
        simp only [get_device_info_map, hb, hq] at h
        exact h
      exact Or.inr (Or.inr (build_info_pairs_error_shape env modes 0 e h2))

/-- An error element of a lightweight per-monitor block is either the
monitor-info failure or the missing-lookup error. -/
lemma allBlock_error_mem_shape (env : OsEnv)
    (m : List (List Nat × DISPLAYCONFIG_TARGET_DEVICE_NAME)) (hm : Int) (e : SysError)
    (h : .error e ∈ allBlock env m hm) :
    (∃ w, e = .GetMonitorInfoFailed w) ∨ e = .DeviceInfoMissing := by
  cases h4 : get_display_devices_from_hmonitor env hm with
  | error e2 =>
    have hb : allBlock env m hm = [.error e2] := by simp only [allBlock, h4]
    rw [hb, List.mem_singleton] at h
    simp only [Except.error.injEq] at h
    subst h
    exact Or.inl (get_display_devices_error_shape env hm e h4)
  | ok dds =>
    have hb : allBlock env m hm = dds.map (allRecord m hm) := by simp only [allBlock, h4]
    rw [hb] at h
    obtain ⟨p, hp, hrec⟩ := List.mem_map.mp h
    unfold allRecord at hrec
    cases hl : lookupLww m p.2.DeviceID with
    | none =>
      rw [hl] at hrec
      simp only [Except.error.injEq] at hrec
      exact Or.inr hrec.symm
    | some ti =>
      rw [hl] at hrec
      exact Except.noConfusion hrec

/-- Claim C10: an error element of `connected_displays_all` is one of the
three target-info build failures, the monitor-enumeration failure, the
monitor-info failure, or `DeviceInfoMissing`; it is never
`EnumerationMismatch`, `GetPhysicalMonitorsFailed`, or
`OpeningMonitorDeviceInterfaceHandleFailed`. -/
theorem claim_c10_all_error_kinds (env : OsEnv) (e : SysError)
    (hmem : .error e ∈ connected_displays_all env) :
    ((∃ w, e = .GetDisplayConfigBufferSizesFailed w) ∨
     (∃ w, e = .QueryDisplayConfigFailed w) ∨
     (∃ w, e = .DisplayConfigGetDeviceInfoFailed w) ∨
     (∃ w, e = .EnumDisplayMonitorsFailed w) ∨
     (∃ w, e = .GetMonitorInfoFailed w) ∨ e = .DeviceInfoMissing) ∧
    e ≠ .EnumerationMismatch ∧
    (∀ w, e ≠ .GetPhysicalMonitorsFailed w) ∧
    (∀ n w, e ≠ .OpeningMonitorDeviceInterfaceHandleFailed n w) := by
  have hshape : (∃ w, e = SysError.GetDisplayConfigBufferSizesFailed w) ∨
      (∃ w, e = SysError.QueryDisplayConfigFailed w) ∨
      (∃ w, e = SysError.DisplayConfigGetDeviceInfoFailed w) ∨
      (∃ w, e = SysError.EnumDisplayMonitorsFailed w) ∨
      (∃ w, e = SysError.GetMonitorInfoFailed w) ∨ e = SysError.DeviceInfoMissing := by
    cases h1 : get_device_info_map env with
    | error e1 =>
      have hc : connected_displays_all env = [.error e1] := by
        simp only [connected_displays_all, h1]
      rw [hc, List.mem_singleton] at hmem
      simp only [Except.error.injEq] at hmem
      subst hmem
      rcases get_device_info_map_error_shape env e h1 with hw | hw | hw
      · exact Or.inl hw
      · exact Or.inr (Or.inl hw)
      · exact Or.inr (Or.inr (Or.inl hw))
    | ok m =>
      cases h2 : enum_display_monitors env with
      | error e2 =>
        have hc : connected_displays_all env = [.error e2] := by
          simp only [connected_displays_all, h1, h2]
        rw [hc, List.mem_singleton] at hmem
        simp only [Except.error.injEq] at hmem
        subst hmem
        obtain ⟨w, hw⟩ := enum_display_monitors_error_shape env e h2
        exact Or.inr (Or.inr (Or.inr (Or.inl ⟨w, hw⟩)))
      | ok hms =>
        have hc : connected_displays_all env = hms.flatMap (allBlock env m) := by
          simp only [connected_displays_all, h1, h2]
        rw [hc] at hmem
        obtain ⟨hm, hhm, hblk⟩ := List.mem_flatMap.mp hmem
        rcases allBlock_error_mem_shape env m hm e hblk with hw | hw
        · exact Or.inr (Or.inr (Or.inr (Or.inr (Or.inl hw))))
        · exact Or.inr (Or.inr (Or.inr (Or.inr (Or.inr hw))))
  refine ⟨hshape, ?_, ?_, ?_⟩
  · rcases hshape with ⟨w, rfl⟩ | ⟨w, rfl⟩ | ⟨w, rfl⟩ | ⟨w, rfl⟩ | ⟨w, rfl⟩ | rfl <;> simp
  · rcases hshape with ⟨w, rfl⟩ | ⟨w, rfl⟩ | ⟨w, rfl⟩ | ⟨w, rfl⟩ | ⟨w, rfl⟩ | rfl <;> simp
  · rcases hshape with ⟨w, rfl⟩ | ⟨w, rfl⟩ | ⟨w, rfl⟩ | ⟨w, rfl⟩ | ⟨w, rfl⟩ | rfl <;> simp

/-- Witness for C10: `envC3b` puts the `DeviceInfoMissing` element in the
lightweight output. -/
theorem claim_c10_witness :
    (Except.error SysError.DeviceInfoMissing ∈ connected_displays_all envC3b) ∧
    (((∃ w, SysError.DeviceInfoMissing = SysError.GetDisplayConfigBufferSizesFailed w) ∨
      (∃ w, SysError.DeviceInfoMissing = SysError.QueryDisplayConfigFailed w) ∨
      (∃ w, SysError.DeviceInfoMissing = SysError.DisplayConfigGetDeviceInfoFailed w) ∨
      (∃ w, SysError.DeviceInfoMissing = SysError.EnumDisplayMonitorsFailed w) ∨
      (∃ w, SysError.DeviceInfoMissing = SysError.GetMonitorInfoFailed w) ∨
      SysError.DeviceInfoMissing = SysError.DeviceInfoMissing) ∧
     SysError.DeviceInfoMissing ≠ SysError.EnumerationMismatch ∧
     (∀ w, SysError.DeviceInfoMissing ≠ SysError.GetPhysicalMonitorsFailed w) ∧
     (∀ n w, SysError.DeviceInfoMissing ≠
        SysError.OpeningMonitorDeviceInterfaceHandleFailed n w)) :=
  ⟨by decide, claim_c10_all_error_kinds envC3b SysError.DeviceInfoMissing (by decide)⟩

/-- Scenario: one monitor with one active device `[100]`, present in the
target-info map, control handle opening successfully. -/
def envC6 : OsEnv :=
  { baseEnv with
    queryDisplayConfigModes := .ok [modeT]
    devInfoCall := fun _ _ => (ERROR_SUCCESS, tdnA)
    enumDisplayMonitorsResult := .ok [0]
    getMonitorInfo := fun _ => .ok infoA
    enumDisplayDevices := fun _ => [devA1]
    getNumberOfPhysicalMonitors := fun _ => .ok 1 }

def recC6 : Device :=
  { hmonitor := 0, size := rect0, work_area_size := rect0, device_name := [65],
    device_description := [66], device_key := [67], device_path := [100],
    output_technology := 3 }

def precC6 : PhysicalDevice :=
  { hmonitor := 0, size := rect0, work_area_size := rect0, physical_monitor := 0,
    file_handle := 7, device_name := [65], device_description := [66], device_key := [67],
    device_path := [100], output_technology := 3 }

example : connected_displays_all envC6 = [.ok recC6] := by decide
example : connected_displays_physical envC6 = [.ok precC6] := by decide


/-- Every pair returned by the display-device enumeration consists of the
monitor info reported for that `HMONITOR` and a device the OS actually
enumerated for it, and that device carries the ACTIVE state flag. -/
lemma get_display_devices_ok_provenance (env : OsEnv) (hm : Int)
    (dds : List (MONITORINFOEXW × DISPLAY_DEVICEW))
    (h : get_display_devices_from_hmonitor env hm = .ok dds) :
    ∀ p ∈ dds, env.getMonitorInfo hm = .ok p.1 ∧
      p.2 ∈ env.enumDisplayDevices p.1.szDevice ∧
      flag_set p.2.StateFlags DISPLAY_DEVICE_ACTIVE = true := by
  cases hmi : env.getMonitorInfo hm with
  | error e =>
    simp only [get_display_devices_from_hmonitor, hmi] at h
    exact Except.noConfusion h
  | ok info =>
    simp only [get_display_devices_from_hmonitor, hmi, Except.ok.injEq] at h
    subst h
    intro p hp
    obtain ⟨d, hd, rfl⟩ := List.mem_map.mp hp
    exact ⟨rfl, (List.mem_filter.mp hd).1, (List.mem_filter.mp hd).2⟩

/-- Claim C6: every successful record of either listing is built from a
device the environment actually enumerated for some reported logical
monitor, that device carries `DISPLAY_DEVICE_ACTIVE`, and the record is
exactly the one the pipeline constructs from it — so no record is ever
built from a device lacking the flag. -/
theorem claim_c6_active_only (env : OsEnv) :
    (∀ rec : Device, .ok rec ∈ connected_displays_all env →
       ∃ m hms hm info d ti,
         get_device_info_map env = .ok m ∧
         enum_display_monitors env = .ok hms ∧ hm ∈ hms ∧
         env.getMonitorInfo hm = .ok info ∧
         d ∈ env.enumDisplayDevices info.szDevice ∧
         flag_set d.StateFlags DISPLAY_DEVICE_ACTIVE = true ∧
         lookupLww m d.DeviceID = some ti ∧
         rec = { hmonitor := hm, size := info.rcMonitor, work_area_size := info.rcWork,
                 device_name := wchar_to_string d.DeviceName,
                 device_description := wchar_to_string d.DeviceString,
                 device_key := wchar_to_string d.DeviceKey,
                 device_path := wchar_to_string d.DeviceID,
                 output_technology := ti.outputTechnology }) ∧
    (∀ rec : PhysicalDevice, .ok rec ∈ connected_displays_physical env →
       ∃ m hms hm pms dds pm info d fh ti,
         get_device_info_map env = .ok m ∧
         enum_display_monitors env = .ok hms ∧ hm ∈ hms ∧
         get_physical_monitors_from_hmonitor env hm = .ok pms ∧
         get_display_devices_from_hmonitor env hm = .ok dds ∧
         ((pm, info, d) : Int × MONITORINFOEXW × DISPLAY_DEVICEW) ∈ pms.zip dds ∧
         env.getMonitorInfo hm = .ok info ∧
         d ∈ env.enumDisplayDevices info.szDevice ∧
         flag_set d.StateFlags DISPLAY_DEVICE_ACTIVE = true ∧
         get_file_handle_for_display_device env d = .ok (some fh) ∧
         lookupLww m d.DeviceID = some ti ∧
         rec = { hmonitor := hm, size := info.rcMonitor, work_area_size := info.rcWork,
                 physical_monitor := pm, file_handle := fh,
                 device_name := wchar_to_string d.DeviceName,
                 device_description := wchar_to_string d.DeviceString,
                 device_key := wchar_to_string d.DeviceKey,
                 device_path := wchar_to_string d.DeviceID,
                 output_technology := ti.outputTechnology }) := by
  constructor
  · intro rec hmem
    cases h1 : get_device_info_map env with
    | error e =>
      have hc : connected_displays_all env = [.error e] := by
        simp only [connected_displays_all, h1]
      rw [hc, List.mem_singleton] at hmem
      exact Except.noConfusion hmem
    | ok m =>
      cases h2 : enum_display_monitors env with
      | error e =>
        have hc : connected_displays_all env = [.error e] := by
          simp only [connected_displays_all, h1, h2]
        rw [hc, List.mem_singleton] at hmem
        exact Except.noConfusion hmem
      | ok hms =>
        have hc : connected_displays_all env = hms.flatMap (allBlock env m) := by
          simp only [connected_displays_all, h1, h2]
        rw [hc] at hmem
        obtain ⟨hm, hhm, hblk⟩ := List.mem_flatMap.mp hmem
        cases h4 : get_display_devices_from_hmonitor env hm with
        | error e =>
          have hb : allBlock env m hm = [.error e] := by simp only [allBlock, h4]
          rw [hb, List.mem_singleton] at hblk
          exact Except.noConfusion hblk
        | ok dds =>
          have hb : allBlock env m hm = dds.map (allRecord m hm) := by
            simp only [allBlock, h4]
          rw [hb] at hblk
          obtain ⟨p, hp, hrec⟩ := List.mem_map.mp hblk
          obtain ⟨hinfo, hdev, hactive⟩ :=
            get_display_devices_ok_provenance env hm dds h4 p hp
          unfold allRecord at hrec
          cases hl : lookupLww m p.2.DeviceID with
          | none => rw [hl] at hrec; exact Except.noConfusion hrec
          | some ti =>
            rw [hl] at hrec
            simp only [Except.ok.injEq] at hrec
            subst hrec
            exact ⟨m, hms, hm, p.1, p.2, ti, rfl, rfl, hhm, hinfo, hdev, hactive, hl, rfl⟩
  · intro rec hmem
    cases h1 : get_device_info_map env with
    | error e =>
      have hc : connected_displays_physical env = [.error e] := by
        simp only [connected_displays_physical, h1]
      rw [hc, List.mem_singleton] at hmem
      exact Except.noConfusion hmem
    | ok m =>
      cases h2 : enum_display_monitors env with
      | error e =>
        have hc : connected_displays_physical env = [.error e] := by
          simp only [connected_displays_physical, h1, h2]
        rw [hc, List.mem_singleton] at hmem
        exact Except.noConfusion hmem
      | ok hms =>
        have hc : connected_displays_physical env = hms.flatMap (physBlock env m) := by
          simp only [connected_displays_physical, h1, h2]
        rw [hc] at hmem
        obtain ⟨hm, hhm, hblk⟩ := List.mem_flatMap.mp hmem
        cases h3 : get_physical_monitors_from_hmonitor env hm with
        | error e =>
          have hb : physBlock env m hm = [.error e] := by simp only [physBlock, h3]
          rw [hb, List.mem_singleton] at hblk
          exact Except.noConfusion hblk
        | ok pms =>
          cases h4 : get_display_devices_from_hmonitor env hm with
          | error e =>
            have hb : physBlock env m hm = [.error e] := by simp only [physBlock, h3, h4]
            rw [hb, List.mem_singleton] at hblk
            exact Except.noConfusion hblk
          | ok dds =>
            by_cases hlen : dds.length ≠ pms.length
            · have hb : physBlock env m hm = [.error .EnumerationMismatch] := by
                simp only [physBlock, h3, h4]
                rw [if_pos hlen]
              rw [hb, List.mem_singleton] at hblk
              exact Except.noConfusion hblk
            · have hb : physBlock env m hm =
                  ((pms.zip dds).filterMap
                    (fun y =>
                      (transposeRO (get_file_handle_for_display_device env y.2.2)).map
                        (fun fh => (y.2.1, y.1, y.2.2, fh)))).map (physRecord m hm) := by
                simp only [physBlock, h3, h4]
                rw [if_neg hlen]
              rw [hb] at hblk
              obtain ⟨x, hx, hrec⟩ := List.mem_map.mp hblk
              obtain ⟨y, hy, hxy⟩ := List.mem_filterMap.mp hx
              obtain ⟨hinfo, hdev, hactive⟩ :=
                get_display_devices_ok_provenance env hm dds h4 y.2 (List.of_mem_zip hy).2
              cases hfh : get_file_handle_for_display_device env y.2.2 with
              | error e =>
                rw [hfh] at hxy
                simp only [transposeRO, Option.map_some', Option.some.injEq] at hxy
                subst hxy
                exact Except.noConfusion hrec
              | ok o =>
                cases o with
                | none =>
                  rw [hfh] at hxy
                  simp only [transposeRO, Option.map_none'] at hxy
                  exact Option.noConfusion hxy
                | some fh =>
                  rw [hfh] at hxy
                  simp only [transposeRO, Option.map_some', Option.some.injEq] at hxy
                  subst hxy
                  unfold physRecord at hrec
                  cases hl : lookupLww m y.2.2.DeviceID with
                  | none =>
                    rw [hl] at hrec
                    exact Except.noConfusion hrec
                  | some ti =>
                    rw [hl] at hrec
                    simp only [Except.ok.injEq] at hrec
                    subst hrec
                    exact ⟨m, hms, hm, pms, dds, y.1, y.2.1, y.2.2, fh, ti,
                      rfl, rfl, hhm, h3, h4, hy, hinfo, hdev, hactive, hfh, hl, rfl⟩

/-- Witness for C6: the records emitted in `envC6` trace back to the
enumerated active device `devA1`. -/
theorem claim_c6_witness :
    (Except.ok recC6 ∈ connected_displays_all envC6 ∧
     ∃ m hms hm info d ti,
       get_device_info_map envC6 = .ok m ∧
       enum_display_monitors envC6 = .ok hms ∧ hm ∈ hms ∧
       envC6.getMonitorInfo hm = .ok info ∧
       d ∈ envC6.enumDisplayDevices info.szDevice ∧
       flag_set d.StateFlags DISPLAY_DEVICE_ACTIVE = true ∧
       lookupLww m d.DeviceID = some ti ∧
       recC6 = { hmonitor := hm, size := info.rcMonitor, work_area_size := info.rcWork,
                 device_name := wchar_to_string d.DeviceName,
                 device_description := wchar_to_string d.DeviceString,
                 device_key := wchar_to_string d.DeviceKey,
                 device_path := wchar_to_string d.DeviceID,
                 output_technology := ti.outputTechnology }) ∧
    (Except.ok precC6 ∈ connected_displays_physical envC6 ∧
     ∃ m hms hm pms dds pm info d fh ti,
       get_device_info_map envC6 = .ok m ∧
       enum_display_monitors envC6 = .ok hms ∧ hm ∈ hms ∧
       get_physical_monitors_from_hmonitor envC6 hm = .ok pms ∧
       get_display_devices_from_hmonitor envC6 hm = .ok dds ∧
       ((pm, info, d) : Int × MONITORINFOEXW × DISPLAY_DEVICEW) ∈ pms.zip dds ∧
       envC6.getMonitorInfo hm = .ok info ∧
       d ∈ envC6.enumDisplayDevices info.szDevice ∧
       flag_set d.StateFlags DISPLAY_DEVICE_ACTIVE = true ∧
       get_file_handle_for_display_device envC6 d = .ok (some fh) ∧
       lookupLww m d.DeviceID = some ti ∧
       precC6 = { hmonitor := hm, size := info.rcMonitor, work_area_size := info.rcWork,
                  physical_monitor := pm, file_handle := fh,
                  device_name := wchar_to_string d.DeviceName,
                  device_description := wchar_to_string d.DeviceString,
                  device_key := wchar_to_string d.DeviceKey,
                  device_path := wchar_to_string d.DeviceID,
                  output_technology := ti.outputTechnology }) :=
  ⟨⟨by decide, (claim_c6_active_only envC6).1 recC6 (by decide)⟩,
   ⟨by decide, (claim_c6_active_only envC6).2 precC6 (by decide)⟩⟩
